import Mathlib

/-!
Shallow embedding of `src/lib/c/buffer.c` (FrameBuffer): a shared-memory,
single-writer / multiple-reader ring of image frames.

Modelling conventions:
* `uint64_t` values (`frame_cnt`, `frame_uid`, `acquisition_time`) are `Nat`
  reduced modulo `U64 = 2^64` exactly where the C arithmetic can wrap.
* Image bytes are `List Nat`; a `memcpy` of `n` bytes is `List.take n`.
* The pthread primitives (`cond`, `cond_mutex`, per-slot `rwlock`) only matter
  under concurrent interleavings; in this sequential model a `tryrdlock`
  always succeeds (no concurrent writer) and the blocking `cond_wait` branch
  of `read_frame` is marked by the distinct outcome `WOULD_WAIT`.
* External effects are explicit parameters: the `kill(owner, 0)` liveness
  probe becomes a `Bool` argument `owner_process_alive`, the filesystem a
  function `String → Option buffer_t`, and `getpid() == owner` a `Bool`.
-/

/-- Modulus of the C `uint64_t` type. -/
def U64 : Nat := 2 ^ 64

/-- `BUFFER_COUNT` from buffer.h: the number of images held in a buffer. -/
def BUFFER_COUNT : Nat := 3

/-- `BLOCK_DIR` from buffer.h: where the backing files live. -/
def BLOCK_DIR : String := "/dev/shm/buffer-"

/-- Exit code `SUCCESS` (buffer.h). -/
def SUCCESS : Nat := 0

/-- Exit code `FRAME_SIZE_MISMATCH` (buffer.h). -/
def FRAME_SIZE_MISMATCH : Nat := 1

/-- Exit code `BLOCK_NOT_ACTIVE` (buffer.h). -/
def BLOCK_NOT_ACTIVE : Nat := 2

/-- Exit code `NO_NEW_FRAME` (buffer.h). -/
def NO_NEW_FRAME : Nat := 3

/-- Modelling marker for the branch of `read_frame` that suspends on the
condition variable (`block_thread = true` with no new frame); the sequential
model cannot run the wait, so it reports this distinct outcome. -/
def WOULD_WAIT : Nat := 4

/-- `struct buffer` (buffer.c lines 27-36).  The `owner` pid and the pthread
primitives are not part of the sequential data state; the owner-liveness probe
and owner identity are passed explicitly to the operations that consult them.
`metadata[i].frame_uid` / `metadata[i].acquisition_time` are split into the two
parallel maps `meta_uid` / `meta_time`, and `images` holds the byte contents of
each of the `BUFFER_COUNT` image slots. -/
structure buffer_t where
  frame_cnt : Nat
  width : Nat
  height : Nat
  depth : Nat
  is_alive : Bool
  meta_uid : Fin BUFFER_COUNT → Nat
  meta_time : Fin BUFFER_COUNT → Nat
  images : Fin BUFFER_COUNT → List Nat

/-- `struct frame` (buffer.h lines 59-64). -/
structure frame_t where
  width : Nat
  height : Nat
  depth : Nat
  acquisition_time : Nat
  frame_uid : Nat
  data : List Nat
deriving DecidableEq

/-- `struct block` (buffer.c lines 38-41): a process-local access point. -/
structure block_t where
  filename : String
  buffer : buffer_t

/-- `buffer_image_size` (buffer.c lines 44-46). -/
def buffer_image_size (b : buffer_t) : Nat := b.width * b.height * b.depth

/-- `frame_image_size` (buffer.c lines 47-49). -/
def frame_image_size (f : frame_t) : Nat := f.width * f.height * f.depth

/-- The slot index `write_frame` selects (buffer.c line 71):
`(buffer->frame_cnt + 1) % BUFFER_COUNT`, where the `+ 1` is carried out in
`uint64_t` arithmetic before the reduction mod `BUFFER_COUNT`. -/
def write_slot (frame_cnt : Nat) : Fin BUFFER_COUNT :=
  ⟨(frame_cnt + 1) % U64 % BUFFER_COUNT, Nat.mod_lt _ (by decide)⟩

/-- `write_frame` (buffer.c lines 57-96).  Checks geometry, then liveness;
on success copies `buffer_image_size` bytes of `data` into the selected slot,
bumps `frame_cnt` (uint64 wrap) and stores the post-increment counter as the
slot's uid.  The C function mutates `*buffer`; here the updated buffer is
returned next to the status code. -/
def write_frame (b : buffer_t) (width height depth : Nat) (acquisition_time : Nat)
    (data : List Nat) : Nat × buffer_t :=
  if b.width ≠ width ∨ b.height ≠ height ∨ b.depth ≠ depth then
    (FRAME_SIZE_MISMATCH, b)
  else if !b.is_alive then
    (BLOCK_NOT_ACTIVE, b)
  else
    let s := write_slot b.frame_cnt
    let fc := (b.frame_cnt + 1) % U64
    (SUCCESS,
      { b with
        frame_cnt := fc
        meta_uid := Function.update b.meta_uid s fc
        meta_time := Function.update b.meta_time s acquisition_time
        images := Function.update b.images s (data.take (buffer_image_size b)) })

/-- The target uid computed by `read_frame` (buffer.c lines 121-130), in
`uint64_t` arithmetic: `last + 1` can wrap, while `newest - BUFFER_COUNT + 1`
is only reached when `newest ≥ BUFFER_COUNT`, so it never wraps. -/
def read_target_uid (last newest : Nat) : Nat :=
  if newest < BUFFER_COUNT then (last + 1) % U64
  else max ((last + 1) % U64) (newest - BUFFER_COUNT + 1)

/-- The target slot of `read_frame` (buffer.c line 133):
`target_frame_uid % BUFFER_COUNT`. -/
def read_target_slot (last newest : Nat) : Fin BUFFER_COUNT :=
  ⟨read_target_uid last newest % BUFFER_COUNT, Nat.mod_lt _ (by decide)⟩

/-- `realloc(frame->data, n)` (buffer.c line 109): the first `min n old` bytes
are preserved; any newly grown bytes are indeterminate in C and modelled as 0
(no theorem below relies on their value). -/
def realloc_resize (l : List Nat) (n : Nat) : List Nat :=
  l.take n ++ List.replicate (n - l.length) 0

/-- `read_frame` (buffer.c lines 98-172).  It first resizes the consumer's
data buffer and overwrites the frame's geometry from the buffer (lines
109-113), then checks liveness, then computes the target (lines 121-133),
then handles the caught-up case (lines 139-151); on the success path it copies
the slot metadata and `frame_image_size` bytes of the slot image (lines
164-168).  The `tryrdlock` loop succeeds immediately in the sequential model. -/
def read_frame (b : buffer_t) (frame : frame_t) (block_thread : Bool) : Nat × frame_t :=
  let frame1 : frame_t :=
    { frame with
      data := realloc_resize frame.data (buffer_image_size b)
      width := b.width
      height := b.height
      depth := b.depth }
  if !b.is_alive then
    (BLOCK_NOT_ACTIVE, frame1)
  else
    let newest := b.frame_cnt
    let last := frame1.frame_uid
    let s := read_target_slot last newest
    if last = newest then
      if block_thread then
        (WOULD_WAIT, frame1)
      else
        (NO_NEW_FRAME, frame1)
    else
      (SUCCESS,
        { frame1 with
          frame_uid := b.meta_uid s
          acquisition_time := b.meta_time s
          data := (b.images s).take (frame_image_size frame1) })

/-- Header initialization performed by `create_block` (buffer.c lines 236-245).
The backing file is grown by `ftruncate`, which zero-fills it, so the slot
metadata and the image bytes all start as zeros. -/
def create_buffer (width height depth : Nat) : buffer_t :=
  { frame_cnt := 0
    width := width
    height := height
    depth := depth
    is_alive := true
    meta_uid := fun _ => 0
    meta_time := fun _ => 0
    images := fun _ => List.replicate (width * height * depth) 0 }

/-- The buffer obtained from a freshly created region by `k` successful
publishes, the i-th (1-indexed) carrying payload `pay i` acquired at time
`tm i`. -/
def publishN (width height depth : Nat) (pay : Nat → List Nat) (tm : Nat → Nat) :
    Nat → buffer_t
  | 0 => create_buffer width height depth
  | k + 1 =>
      (write_frame (publishN width height depth pay tm k) width height depth
        (tm (k + 1)) (pay (k + 1))).2

/-- The slot the i-th successful publish (1-indexed) writes into: just before
it the counter holds `(i-1) % U64`, and `write_slot` adds one in `uint64_t`
arithmetic before reducing mod `BUFFER_COUNT`. -/
def slotOf (i : Nat) : Nat := ((i - 1) % U64 + 1) % U64 % BUFFER_COUNT

/-- The index (1-based, 0 when none) of the most recent publish among the
first `k` that wrote slot `s`. -/
def lastPub (k : Nat) (s : Fin BUFFER_COUNT) : Nat :=
  Nat.findGreatest (fun i => i ≠ 0 ∧ slotOf i = s.val) k

/-- `block_is_alive` (buffer.c lines 315-317). -/
def block_is_alive (block : block_t) : Bool := block.buffer.is_alive

/-- `block_is_poisoned` (buffer.c lines 297-306): the owner is probed with
`kill(buffer->owner, 0)` (a null signal); that external probe is the
parameter `owner_process_alive`. -/
def block_is_poisoned (owner_process_alive : Bool) (block : block_t) : Bool :=
  !owner_process_alive && block.buffer.is_alive

/-- The separator test of `file_address_from_direction` (buffer.c line 190):
`strpbrk(direction, "/") != NULL`, i.e. the name contains the character. -/
def has_path_separator (direction : String) : Bool := direction.toList.contains '/'

/-- `open_block` (buffer.c lines 266-288): rejects a direction containing a
path separator, then opens the backing file `BLOCK_DIR ++ direction`; it
returns NULL (`none`) in both failure cases.  The filesystem is the explicit
map `fs` from paths to the buffer backing them. -/
def open_block (fs : String → Option buffer_t) (direction : String) : Option block_t :=
  if has_path_separator direction then none
  else
    match fs (BLOCK_DIR ++ direction) with
    | none => none
    | some buffer => some { filename := BLOCK_DIR ++ direction, buffer := buffer }

/-- `cstr_block_is_alive` (buffer.c lines 308-313): it passes the handle
returned by `open_block` straight to `block_is_alive` with no NULL check, so
its result is only defined (`some`) when `open_block` succeeded; a `none`
handle would be dereferenced. -/
def cstr_block_is_alive (fs : String → Option buffer_t) (direction : String) :
    Option Bool :=
  (open_block fs direction).map block_is_alive

/-- `cstr_block_is_poisoned` (buffer.c lines 290-295): same NULL-unchecked
shape as `cstr_block_is_alive`. -/
def cstr_block_is_poisoned (fs : String → Option buffer_t)
    (owner_process_alive : Bool) (direction : String) : Option Bool :=
  (open_block fs direction).map (block_is_poisoned owner_process_alive)

/-- The observable region/filesystem state that `destroy_block` acts on:
the region's alive flag, whether the backing file still exists under its
original (un-archived) name, and whether the mapping is still in place. -/
structure DestroyWorld where
  is_alive : Bool
  file_at_original_name : Bool
  mapped : Bool
deriving DecidableEq

/-- `destroy_block` (buffer.c lines 332-379).  It computes the authorization
predicate (owner, or poisoned = owner dead while alive) and prints a
diagnostic when unauthorized, but there is no early return: execution falls
through and unconditionally clears `is_alive`, renames and then removes the
backing file, and unmaps the region.  The returned `Bool` records whether the
"cannot free unpoisoned block" diagnostic was printed. -/
def destroy_block (is_owner owner_process_alive : Bool) (w : DestroyWorld) :
    Bool × DestroyWorld :=
  let is_poisoned := !owner_process_alive && w.is_alive
  let complained := !is_owner && !is_poisoned
  (complained, { is_alive := false, file_at_original_name := false, mapped := false })

/-- The consumer-side target formula exactly as the specification words it
(§4.1): during warm-up the target uid is `last + 1`, otherwise
`max (last + 1) (newest - N + 1)`, read as unbounded integer arithmetic. -/
def spec_target_uid (last newest : Nat) : Nat :=
  if newest < BUFFER_COUNT then last + 1
  else max (last + 1) (newest - BUFFER_COUNT + 1)

/-- A fresh consumer frame as built by `create_frame` (buffer.c lines
174-179): `frame_uid = 0` and an 8-byte data allocation; the geometry and
timestamp fields are left indeterminate by the C code and taken as 0 here
(no theorem relies on their initial values). -/
def frame0 : frame_t :=
  { width := 0, height := 0, depth := 0, acquisition_time := 0, frame_uid := 0
    data := List.replicate 8 0 }

/-- Concrete payload stream for boundary scenarios (distinct bytes for
publish indices that collide modulo `U64`, since `U64 % 255 = 1`). -/
def pay0 (i : Nat) : List Nat := List.replicate 4 (i % 255)

/-- Concrete acquisition-time stream for boundary scenarios. -/
def tm0 (i : Nat) : Nat := i

/-- A consumer frame whose geometry differs from the region's: its fields are
freely choosable by the client (frame_t is exposed in buffer.h), and
`create_frame` itself leaves geometry indeterminate. -/
def frame5 : frame_t :=
  { width := 5, height := 7, depth := 2, acquisition_time := 11, frame_uid := 0
    data := [9] }

/-- A freshly created 2x2x1 region whose owner has already flipped the alive
flag (the state after `destroy_block` set `is_alive = false`). -/
def bdead : buffer_t := { create_buffer 2 2 1 with is_alive := false }

/-- A one-file demo filesystem: only the backing file for direction "cam"
exists. -/
def fs_demo : String → Option buffer_t :=
  fun s => if s = "/dev/shm/buffer-cam" then some (create_buffer 2 2 1) else none

/-- Slot index 1 of the ring. -/
def slot1 : Fin BUFFER_COUNT := ⟨1, by decide⟩

/-- Slot index 2 of the ring. -/
def slot2 : Fin BUFFER_COUNT := ⟨2, by decide⟩

/-- Payload stream with pairwise distinct small payloads. -/
def payW (i : Nat) : List Nat := List.replicate 4 i

/-- Acquisition-time stream for the small scenarios. -/
def tmW (i : Nat) : Nat := 10 * i

/-- A consumer frame that has already observed uid 1. -/
def frameW : frame_t :=
  { width := 2, height := 2, depth := 1, acquisition_time := 0, frame_uid := 1
    data := List.replicate 4 0 }

/-- The consumer frame produced by reading a fresh consumer against two
publishes of the `payW`/`tmW` stream at `k = 1`. -/
def frameW1 : frame_t :=
  { width := 2, height := 2, depth := 1, acquisition_time := 10, frame_uid := 1
    data := [1, 1, 1, 1] }

/-- The consumer frame produced by the follow-up read at `k = 2`. -/
def frameW2 : frame_t :=
  { width := 2, height := 2, depth := 1, acquisition_time := 20, frame_uid := 2
    data := [2, 2, 2, 2] }

/-! ### General lemmas about the embedded operations -/

lemma slotOf_eq_of_lt {i : Nat} (h1 : 1 ≤ i) (h2 : i < U64) :
    slotOf i = i % BUFFER_COUNT := by
  unfold slotOf
  rw [Nat.mod_eq_of_lt (show i - 1 < U64 by omega), Nat.sub_add_cancel h1,
    Nat.mod_eq_of_lt h2]

lemma publishN_invariant (w h d : Nat) (pay : Nat → List Nat) (tm : Nat → Nat) (k : Nat) :
    (publishN w h d pay tm k).width = w ∧
    (publishN w h d pay tm k).height = h ∧
    (publishN w h d pay tm k).depth = d ∧
    (publishN w h d pay tm k).is_alive = true ∧
    (publishN w h d pay tm k).frame_cnt = k % U64 ∧
    ∀ s : Fin BUFFER_COUNT,
      (publishN w h d pay tm k).meta_uid s = lastPub k s % U64 ∧
      (publishN w h d pay tm k).meta_time s =
        (if lastPub k s = 0 then 0 else tm (lastPub k s)) ∧
      (publishN w h d pay tm k).images s =
        (if lastPub k s = 0 then List.replicate (w * h * d) 0
          else (pay (lastPub k s)).take (w * h * d)) := by
  induction k with
  | zero =>
      refine ⟨rfl, rfl, rfl, rfl, rfl, fun s => ?_⟩
      refine ⟨rfl, rfl, rfl⟩
  | succ k ih =>
      obtain ⟨hw, hh, hd, ha, hc, hmeta⟩ := ih
      have hgeom : ¬((publishN w h d pay tm k).width ≠ w ∨
          (publishN w h d pay tm k).height ≠ h ∨ (publishN w h d pay tm k).depth ≠ d) := by
        simp [hw, hh, hd]
      have halive : ¬((!(publishN w h d pay tm k).is_alive) = true) := by
        simp [ha]
      have hstep : publishN w h d pay tm (k + 1) =
          { frame_cnt := ((publishN w h d pay tm k).frame_cnt + 1) % U64
            width := (publishN w h d pay tm k).width
            height := (publishN w h d pay tm k).height
            depth := (publishN w h d pay tm k).depth
            is_alive := (publishN w h d pay tm k).is_alive
            meta_uid := Function.update (publishN w h d pay tm k).meta_uid
              (write_slot (publishN w h d pay tm k).frame_cnt)
              (((publishN w h d pay tm k).frame_cnt + 1) % U64)
            meta_time := Function.update (publishN w h d pay tm k).meta_time
              (write_slot (publishN w h d pay tm k).frame_cnt) (tm (k + 1))
            images := Function.update (publishN w h d pay tm k).images
              (write_slot (publishN w h d pay tm k).frame_cnt)
              ((pay (k + 1)).take (buffer_image_size (publishN w h d pay tm k))) } := by
        have hpub : publishN w h d pay tm (k + 1) =
            (write_frame (publishN w h d pay tm k) w h d (tm (k + 1)) (pay (k + 1))).2 := rfl
        rw [hpub]
        simp only [write_frame, if_neg hgeom, if_neg halive]
      have hslotval : (write_slot (publishN w h d pay tm k).frame_cnt).val = slotOf (k + 1) := by
        simp [write_slot, slotOf, hc]
      have hlp : ∀ s : Fin BUFFER_COUNT,
          lastPub (k + 1) s =
            if s = write_slot (publishN w h d pay tm k).frame_cnt then k + 1
            else lastPub k s := by
        intro s
        by_cases hss : s = write_slot (publishN w h d pay tm k).frame_cnt
        · rw [if_pos hss]
          unfold lastPub
          rw [Nat.findGreatest_succ,
            if_pos ⟨Nat.succ_ne_zero k, by rw [hss]; exact hslotval.symm⟩]
        · rw [if_neg hss]
          have hnp : ¬(k + 1 ≠ 0 ∧ slotOf (k + 1) = s.val) := by
            rintro ⟨-, hco⟩
            exact hss (Fin.ext (hslotval.trans hco)).symm
          unfold lastPub
          rw [Nat.findGreatest_succ, if_neg hnp]
      have hisz : buffer_image_size (publishN w h d pay tm k) = w * h * d := by
        unfold buffer_image_size
        rw [hw, hh, hd]
      have hfc : (publishN w h d pay tm (k + 1)).frame_cnt =
          ((publishN w h d pay tm k).frame_cnt + 1) % U64 := by rw [hstep]
      have hmu : (publishN w h d pay tm (k + 1)).meta_uid =
          Function.update (publishN w h d pay tm k).meta_uid
            (write_slot (publishN w h d pay tm k).frame_cnt)
            (((publishN w h d pay tm k).frame_cnt + 1) % U64) := by rw [hstep]
      have hmt : (publishN w h d pay tm (k + 1)).meta_time =
          Function.update (publishN w h d pay tm k).meta_time
            (write_slot (publishN w h d pay tm k).frame_cnt) (tm (k + 1)) := by rw [hstep]
      have him : (publishN w h d pay tm (k + 1)).images =
          Function.update (publishN w h d pay tm k).images
            (write_slot (publishN w h d pay tm k).frame_cnt)
            ((pay (k + 1)).take (buffer_image_size (publishN w h d pay tm k))) := by
        rw [hstep]
      refine ⟨?_, ?_, ?_, ?_, ?_, fun s => ?_⟩
      · rw [hstep]; exact hw
      · rw [hstep]; exact hh
      · rw [hstep]; exact hd
      · rw [hstep]; exact ha
      · rw [hfc, hc, Nat.mod_add_mod]
      · obtain ⟨hu, ht, hi⟩ := hmeta s
        rw [hmu, hmt, him, hlp s]
        by_cases hss : s = write_slot (publishN w h d pay tm k).frame_cnt
        · subst hss
          refine ⟨?_, ?_, ?_⟩
          · rw [Function.update_same, if_pos rfl, hc, Nat.mod_add_mod]
          · rw [Function.update_same, if_pos rfl, if_neg (Nat.succ_ne_zero k)]
          · rw [Function.update_same, if_pos rfl, if_neg (Nat.succ_ne_zero k), hisz]
        · refine ⟨?_, ?_, ?_⟩
          · rw [Function.update_noteq hss, if_neg hss, hu]
          · rw [Function.update_noteq hss, if_neg hss, ht]
          · rw [Function.update_noteq hss, if_neg hss, hi]

lemma read_frame_caught_up (b : buffer_t) (f : frame_t)
    (ha : b.is_alive = true) (heq : f.frame_uid = b.frame_cnt) :
    read_frame b f false =
      (NO_NEW_FRAME,
        { f with
          data := realloc_resize f.data (buffer_image_size b)
          width := b.width
          height := b.height
          depth := b.depth }) := by
  simp [read_frame, ha, heq]

lemma read_frame_success_eq (b : buffer_t) (f : frame_t)
    (ha : b.is_alive = true) (hne : f.frame_uid ≠ b.frame_cnt) :
    read_frame b f false =
      (SUCCESS,
        { width := b.width
          height := b.height
          depth := b.depth
          acquisition_time := b.meta_time (read_target_slot f.frame_uid b.frame_cnt)
          frame_uid := b.meta_uid (read_target_slot f.frame_uid b.frame_cnt)
          data := (b.images (read_target_slot f.frame_uid b.frame_cnt)).take
            (b.width * b.height * b.depth) }) := by
  simp [read_frame, ha, hne, frame_image_size]

lemma read_frame_success_inv (b : buffer_t) (f : frame_t) (bt : Bool)
    (h : (read_frame b f bt).1 = SUCCESS) :
    b.is_alive = true ∧ f.frame_uid ≠ b.frame_cnt := by
  by_cases ha : b.is_alive = true
  · by_cases hne : f.frame_uid = b.frame_cnt
    · exfalso
      cases bt
      · simp [read_frame, ha, hne, NO_NEW_FRAME, SUCCESS] at h
      · simp [read_frame, ha, hne, WOULD_WAIT, SUCCESS] at h
    · exact ⟨ha, hne⟩
  · exfalso
    have ha' : b.is_alive = false := by
      cases hb : b.is_alive
      · rfl
      · exact absurd hb ha
    simp [read_frame, ha', BLOCK_NOT_ACTIVE, SUCCESS] at h

lemma lastPub_read_target (k last : Nat) (hk : k < U64) (hlast : last < k) :
    lastPub k (read_target_slot last k) = read_target_uid last k ∧
    last < read_target_uid last k ∧ read_target_uid last k ≤ k := by
  have hU : last + 1 < U64 := by omega
  have hmod : (last + 1) % U64 = last + 1 := Nat.mod_eq_of_lt hU
  have hBC : BUFFER_COUNT = 3 := rfl
  have hsv : (read_target_slot last k).val = read_target_uid last k % BUFFER_COUNT := rfl
  by_cases h3 : k < BUFFER_COUNT
  · have htgt : read_target_uid last k = last + 1 := by
      rw [read_target_uid, if_pos h3, hmod]
    refine ⟨?_, by omega, by omega⟩
    unfold lastPub
    rw [Nat.findGreatest_eq_iff]
    refine ⟨by omega, fun _ => ⟨by omega, ?_⟩, fun n hn1 hn2 => ?_⟩
    · rw [slotOf_eq_of_lt (by omega) (by omega), hsv]
    · rintro ⟨hn0, hns⟩
      rw [slotOf_eq_of_lt (by omega) (by omega), hsv] at hns
      rw [hBC] at hns
      omega
  · have htgt : read_target_uid last k = max (last + 1) (k - BUFFER_COUNT + 1) := by
      rw [read_target_uid, if_neg h3, hmod]
    have h1 : last + 1 ≤ read_target_uid last k := by
      rw [htgt]; exact le_max_left _ _
    have h2 : k - BUFFER_COUNT + 1 ≤ read_target_uid last k := by
      rw [htgt]; exact le_max_right _ _
    have h4 : read_target_uid last k ≤ k := by
      rw [htgt]; exact max_le (by omega) (by omega)
    refine ⟨?_, by omega, h4⟩
    unfold lastPub
    rw [Nat.findGreatest_eq_iff]
    refine ⟨h4, fun _ => ⟨by omega, ?_⟩, fun n hn1 hn2 => ?_⟩
    · rw [slotOf_eq_of_lt (by omega) (by omega), hsv]
    · rintro ⟨hn0, hns⟩
      rw [slotOf_eq_of_lt (by omega) (by omega), hsv] at hns
      rw [hBC] at hns
      rw [hBC] at h2
      omega

lemma read_success_uid_step (w h d : Nat) (pay : Nat → List Nat) (tm : Nat → Nat)
    (k : Nat) (hk : k < U64) (f : frame_t) (hle : f.frame_uid ≤ k)
    (hsucc : (read_frame (publishN w h d pay tm k) f false).1 = SUCCESS) :
    f.frame_uid < (read_frame (publishN w h d pay tm k) f false).2.frame_uid ∧
    (read_frame (publishN w h d pay tm k) f false).2.frame_uid ≤ k := by
  obtain ⟨hw, hh, hd, ha, hc, hmeta⟩ := publishN_invariant w h d pay tm k
  obtain ⟨ha', hne⟩ := read_frame_success_inv _ _ _ hsucc
  have hck : (publishN w h d pay tm k).frame_cnt = k := by
    rw [hc, Nat.mod_eq_of_lt hk]
  have hlast : f.frame_uid < k := by
    rcases lt_or_eq_of_le hle with hlt | heq
    · exact hlt
    · exact absurd (heq.trans hck.symm) hne
  obtain ⟨hlp, hgt, hlek⟩ := lastPub_read_target k f.frame_uid hk hlast
  rw [read_frame_success_eq _ _ ha' hne, hck]
  rw [(hmeta (read_target_slot f.frame_uid k)).1, hlp,
    Nat.mod_eq_of_lt (lt_of_le_of_lt hlek hk)]
  exact ⟨hgt, hlek⟩

lemma write_frame_status_success (b : buffer_t) (w h d t : Nat) (data : List Nat)
    (hw : b.width = w) (hh : b.height = h) (hd : b.depth = d)
    (ha : b.is_alive = true) :
    (write_frame b w h d t data).1 = SUCCESS := by
  unfold write_frame
  rw [if_neg (by simp [hw, hh, hd]), if_neg (by simp [ha])]

lemma write_slot_val_publishN (w h d : Nat) (pay : Nat → List Nat) (tm : Nat → Nat)
    (k : Nat) :
    (write_slot (publishN w h d pay tm k).frame_cnt).val = slotOf (k + 1) := by
  have hc := (publishN_invariant w h d pay tm k).2.2.2.2.1
  simp [write_slot, slotOf, hc]

lemma lastPub_succ_self (k : Nat) (s : Fin BUFFER_COUNT) (hs : slotOf (k + 1) = s.val) :
    lastPub (k + 1) s = k + 1 := by
  unfold lastPub
  rw [Nat.findGreatest_succ, if_pos ⟨Nat.succ_ne_zero k, hs⟩]

lemma read_result_uid_le (w h d : Nat) (pay : Nat → List Nat) (tm : Nat → Nat)
    (k : Nat) (f : frame_t)
    (hsucc : (read_frame (publishN w h d pay tm k) f false).1 = SUCCESS) :
    (read_frame (publishN w h d pay tm k) f false).2.frame_uid ≤ k := by
  obtain ⟨hw, hh, hd, ha, hc, hmeta⟩ := publishN_invariant w h d pay tm k
  obtain ⟨ha', hne⟩ := read_frame_success_inv _ _ _ hsucc
  rw [read_frame_success_eq _ _ ha' hne]
  show (publishN w h d pay tm k).meta_uid
      (read_target_slot f.frame_uid (publishN w h d pay tm k).frame_cnt) ≤ k
  rw [(hmeta _).1]
  have hle : lastPub k
      (read_target_slot f.frame_uid (publishN w h d pay tm k).frame_cnt) ≤ k := by
    unfold lastPub
    exact Nat.findGreatest_le k
  exact le_trans (Nat.mod_le _ _) hle

/-! ### Claim theorems -/

/-- Claim C4 (code-bug evidence): evaluated at the failing input — a
non-owner process (`is_owner = false`) calling `destroy_block` on an alive,
non-poisoned region (`owner_process_alive = true`) whose backing file is
present and mapped — the code does print the authorization diagnostic (first
component `true`), yet it still clears the alive flag, removes the backing
file from its original name, and releases the mapping.  buffer.h's contract
("this function will do nothing") and the specification say no state changes;
the implementation lacks the early return after the diagnostic. -/
theorem destroy_unauthorized_still_destroys :
    destroy_block false true
        { is_alive := true, file_at_original_name := true, mapped := true } =
      (true, { is_alive := false, file_at_original_name := false, mapped := false }) := rfl

/-- Claim C5 (amended): a non-blocking read on an alive region with the
consumer caught up (`frame.frame_uid = frame_cnt`) returns NoNewFrame and
leaves the frame's uid (and timestamp) unchanged; but the geometry fields are
overwritten with the region's geometry and the data buffer is resized to the
region's image size, because buffer.c lines 109-113 run before the caught-up
check. -/
theorem nonblocking_caught_up_read (b : buffer_t) (f : frame_t)
    (ha : b.is_alive = true) (heq : f.frame_uid = b.frame_cnt) :
    (read_frame b f false).1 = NO_NEW_FRAME ∧
    (read_frame b f false).2.frame_uid = f.frame_uid ∧
    (read_frame b f false).2.acquisition_time = f.acquisition_time ∧
    (read_frame b f false).2.width = b.width ∧
    (read_frame b f false).2.height = b.height ∧
    (read_frame b f false).2.depth = b.depth ∧
    (read_frame b f false).2.data = realloc_resize f.data (buffer_image_size b) := by
  rw [read_frame_caught_up b f ha heq]
  exact ⟨rfl, rfl, rfl, rfl, rfl, rfl, rfl⟩

/-- Witness for the amended claim C5 at a concrete caught-up state. -/
theorem nonblocking_caught_up_read_witness :
    (read_frame (create_buffer 2 2 1) frame5 false).1 = NO_NEW_FRAME ∧
    (read_frame (create_buffer 2 2 1) frame5 false).2.frame_uid = frame5.frame_uid := by
  have hca := nonblocking_caught_up_read (create_buffer 2 2 1) frame5 rfl rfl
  exact ⟨hca.1, hca.2.1⟩

/-- Claim C5 counterexample: region geometry is 2x2x1 and the caught-up
consumer frame frame5 has width 5; the non-blocking read returns NoNewFrame
yet the frame comes back with width 2 — it was not left entirely unchanged. -/
theorem nonblocking_read_changes_geometry :
    (read_frame (create_buffer 2 2 1) frame5 false).1 = NO_NEW_FRAME ∧
    frame5.width = 5 ∧
    (read_frame (create_buffer 2 2 1) frame5 false).2.width = 2 := by
  refine ⟨rfl, rfl, rfl⟩

/-- Claim C6: write_frame checks its preconditions in order — a geometry
mismatch returns FRAME_SIZE_MISMATCH regardless of the alive flag, and a
geometry-matching call on a not-alive region returns BLOCK_NOT_ACTIVE; in
both cases the returned region state is exactly the input state (no field of
the buffer is modified). -/
theorem write_frame_precondition_order (b : buffer_t) (w h d t : Nat) (data : List Nat) :
    (¬(b.width = w ∧ b.height = h ∧ b.depth = d) →
      write_frame b w h d t data = (FRAME_SIZE_MISMATCH, b)) ∧
    ((b.width = w ∧ b.height = h ∧ b.depth = d) → b.is_alive = false →
      write_frame b w h d t data = (BLOCK_NOT_ACTIVE, b)) := by
  constructor
  · intro hmis
    unfold write_frame
    rw [if_pos (by tauto)]
  · rintro ⟨hw, hh, hd⟩ hal
    unfold write_frame
    rw [if_neg (by simp [hw, hh, hd]), if_pos (by simp [hal])]

/-- Witness for claim C6 on a dead 2x2x1 region: a width-mismatched call
fails with FRAME_SIZE_MISMATCH (geometry is checked first even though the
region is not alive), and a geometry-matching call fails with
BLOCK_NOT_ACTIVE; both leave the region untouched. -/
theorem write_frame_precondition_order_witness :
    write_frame bdead 9 2 1 0 [] = (FRAME_SIZE_MISMATCH, bdead) ∧
    write_frame bdead 2 2 1 0 [] = (BLOCK_NOT_ACTIVE, bdead) := by
  constructor
  · exact (write_frame_precondition_order bdead 9 2 1 0 []).1 (by decide)
  · exact (write_frame_precondition_order bdead 2 2 1 0 []).2 (by decide) rfl

/-- Claim C8: block_is_alive returns exactly the region's alive flag, and
block_is_poisoned is true iff the alive flag is true and the owner process
(probed with the null signal, here the parameter owner_process_alive) no
longer exists. -/
theorem inspection_predicates_spec (owner_process_alive : Bool) (blk : block_t) :
    block_is_alive blk = blk.buffer.is_alive ∧
    (block_is_poisoned owner_process_alive blk = true ↔
      blk.buffer.is_alive = true ∧ owner_process_alive = false) := by
  refine ⟨rfl, ?_⟩
  cases owner_process_alive <;> cases hb : blk.buffer.is_alive <;>
    simp [block_is_poisoned, hb]

/-- Witness for claim C8 on a live region whose owner is dead: alive and
poisoned both report true. -/
theorem inspection_predicates_spec_witness :
    block_is_alive { filename := "/dev/shm/buffer-cam", buffer := create_buffer 2 2 1 } = true ∧
    block_is_poisoned false
      { filename := "/dev/shm/buffer-cam", buffer := create_buffer 2 2 1 } = true := by
  have hip := inspection_predicates_spec false
    { filename := "/dev/shm/buffer-cam", buffer := create_buffer 2 2 1 }
  exact ⟨hip.1.trans rfl, hip.2.mpr ⟨rfl, rfl⟩⟩

/-- Claim C9: the slot index computed by write_frame
(`(frame_cnt + 1) % BUFFER_COUNT` in uint64 arithmetic) and by read_frame
(`target_uid % BUFFER_COUNT`) is strictly below BUFFER_COUNT, and the byte
range of the corresponding memcpy — image_size bytes starting at offset
image_size * slot — stays within the BUFFER_COUNT slots of image_size =
width*height*depth bytes each. -/
theorem slot_index_in_bounds (b : buffer_t) (c last newest : Nat) :
    (write_slot c).val < BUFFER_COUNT ∧
    (read_target_slot last newest).val < BUFFER_COUNT ∧
    buffer_image_size b * (write_slot c).val + buffer_image_size b ≤
      buffer_image_size b * BUFFER_COUNT ∧
    buffer_image_size b * (read_target_slot last newest).val + buffer_image_size b ≤
      buffer_image_size b * BUFFER_COUNT := by
  have h1 := (write_slot c).isLt
  have h2 := (read_target_slot last newest).isLt
  refine ⟨h1, h2, ?_, ?_⟩
  · calc buffer_image_size b * (write_slot c).val + buffer_image_size b
        = buffer_image_size b * ((write_slot c).val + 1) := by ring
      _ ≤ buffer_image_size b * BUFFER_COUNT := Nat.mul_le_mul le_rfl h1
  · calc buffer_image_size b * (read_target_slot last newest).val + buffer_image_size b
        = buffer_image_size b * ((read_target_slot last newest).val + 1) := by ring
      _ ≤ buffer_image_size b * BUFFER_COUNT := Nat.mul_le_mul le_rfl h2

/-- Claim C10: cstr_block_is_alive and cstr_block_is_poisoned feed the handle
returned by open_block to the predicate with no NULL check, so their result
is defined (no null-handle dereference, modelled as `some`) exactly when
open_block succeeds — which happens exactly when the direction contains no
path separator and a backing file for it exists. -/
theorem cstr_predicates_null_safety (fs : String → Option buffer_t)
    (owner_process_alive : Bool) (direction : String) :
    ((cstr_block_is_alive fs direction).isSome ↔ (open_block fs direction).isSome) ∧
    ((cstr_block_is_poisoned fs owner_process_alive direction).isSome ↔
      (open_block fs direction).isSome) ∧
    ((open_block fs direction).isSome ↔
      has_path_separator direction = false ∧ (fs (BLOCK_DIR ++ direction)).isSome) := by
  refine ⟨?_, ?_, ?_⟩
  · unfold cstr_block_is_alive
    cases open_block fs direction <;> simp
  · unfold cstr_block_is_poisoned
    cases open_block fs direction <;> simp
  · unfold open_block
    by_cases hsl : has_path_separator direction = true
    · simp [hsl]
    · have hsl' : has_path_separator direction = false := by
        cases hcc : has_path_separator direction
        · rfl
        · exact absurd hcc hsl
      simp only [hsl', Bool.false_eq_true, if_false, true_and]
      cases fs (BLOCK_DIR ++ direction) <;> simp

/-- Witness for claim C10: on a filesystem holding only the backing file for
"cam", the name-indexed predicate is defined for "cam". -/
theorem cstr_predicates_null_safety_witness :
    (cstr_block_is_alive fs_demo "cam").isSome = true := by
  have hcp := cstr_predicates_null_safety fs_demo true "cam"
  exact hcp.1.mpr (hcp.2.2.mpr ⟨by decide, by decide⟩)

/-- Claim C1 (amended): starting from a fresh region, every successful
write_frame writes its payload into slot ((frame_count + 1) mod 2^64) mod N,
sets the counter to (frame_count + 1) mod 2^64, and stores that post-increment
counter as the slot's frame_uid; hence after k successful publishes
frame_count equals k mod 2^64 — which is k itself whenever k < 2^64.  (The
unamended claim drops the mod-2^64 reductions, which only matters at the
uint64 wrap.) -/
theorem publish_sequence_spec (w h d : Nat) (pay : Nat → List Nat) (tm : Nat → Nat)
    (k : Nat) :
    (publishN w h d pay tm k).frame_cnt = k % U64 ∧
    (k < U64 → (publishN w h d pay tm k).frame_cnt = k) ∧
    (write_frame (publishN w h d pay tm k) w h d (tm (k + 1)) (pay (k + 1))).1 = SUCCESS ∧
    (publishN w h d pay tm (k + 1)).frame_cnt =
      ((publishN w h d pay tm k).frame_cnt + 1) % U64 ∧
    (publishN w h d pay tm (k + 1)).meta_uid
        (write_slot (publishN w h d pay tm k).frame_cnt) =
      (publishN w h d pay tm (k + 1)).frame_cnt ∧
    (publishN w h d pay tm (k + 1)).images
        (write_slot (publishN w h d pay tm k).frame_cnt) =
      (pay (k + 1)).take (w * h * d) := by
  obtain ⟨hw, hh, hd, ha, hc, hmeta⟩ := publishN_invariant w h d pay tm k
  obtain ⟨hw1, hh1, hd1, ha1, hc1, hmeta1⟩ := publishN_invariant w h d pay tm (k + 1)
  have hsv := write_slot_val_publishN w h d pay tm k
  have hlpS : lastPub (k + 1) (write_slot (publishN w h d pay tm k).frame_cnt) = k + 1 :=
    lastPub_succ_self k _ hsv.symm
  refine ⟨hc, ?_, ?_, ?_, ?_, ?_⟩
  · intro hk
    rw [hc, Nat.mod_eq_of_lt hk]
  · exact write_frame_status_success _ _ _ _ _ _ hw hh hd ha
  · rw [hc1, hc, Nat.mod_add_mod]
  · rw [(hmeta1 _).1, hlpS, hc1]
  · rw [(hmeta1 _).2.2, hlpS, if_neg (Nat.succ_ne_zero k)]

/-- Witness for the amended claim C1 at k = 5 publishes. -/
theorem publish_sequence_spec_witness :
    (publishN 2 2 1 pay0 tm0 5).frame_cnt = 5 := by
  exact (publish_sequence_spec 2 2 1 pay0 tm0 5).2.1 (by decide)

/-- Claim C1 counterexample at the uint64 boundary: after exactly 2^64
successful publishes the counter has wrapped to 0 (not 2^64), and at the
2^64-th publish (counter value 2^64 - 1) the slot actually written,
((frame_cnt + 1) mod 2^64) mod N = 0, differs from the claim's
(frame_cnt + 1) mod N = 1. -/
theorem write_frame_wraps_at_u64 :
    (publishN 2 2 1 pay0 tm0 U64).frame_cnt ≠ U64 ∧
    (write_slot (publishN 2 2 1 pay0 tm0 (U64 - 1)).frame_cnt).val ≠
      ((publishN 2 2 1 pay0 tm0 (U64 - 1)).frame_cnt + 1) % BUFFER_COUNT := by
  have h1 := (publishN_invariant 2 2 1 pay0 tm0 U64).2.2.2.2.1
  have h2 := (publishN_invariant 2 2 1 pay0 tm0 (U64 - 1)).2.2.2.2.1
  constructor
  · rw [h1]
    decide
  · rw [h2]
    decide

/-- Claim C2 (amended): provided last + 1 does not overflow uint64
(last < 2^64 - 1), the target uid computed by read_frame equals the
specification formula — last + 1 during warm-up (newest < N), otherwise
max(last + 1, newest - N + 1) — and the target slot is that uid mod N.  (The
unamended claim also covers last = 2^64 - 1, where the code's uint64 addition
wraps.) -/
theorem read_target_matches_spec (last newest : Nat) (hlt : last + 1 < U64) :
    read_target_uid last newest = spec_target_uid last newest ∧
    (read_target_slot last newest).val = spec_target_uid last newest % BUFFER_COUNT := by
  have hmod : (last + 1) % U64 = last + 1 := Nat.mod_eq_of_lt hlt
  have heq : read_target_uid last newest = spec_target_uid last newest := by
    unfold read_target_uid spec_target_uid
    rw [hmod]
  refine ⟨heq, ?_⟩
  have hsv : (read_target_slot last newest).val =
      read_target_uid last newest % BUFFER_COUNT := rfl
  rw [hsv, heq]

/-- Witness for the amended claim C2 at last = 6, newest = 9. -/
theorem read_target_matches_spec_witness :
    read_target_uid 6 9 = spec_target_uid 6 9 := by
  exact (read_target_matches_spec 6 9 (by decide)).1

/-- Claim C2 counterexample at the uint64 boundary: for the representable
consumer uid last = 2^64 - 1 and newest = 4, the code computes last + 1 in
uint64, which wraps to 0, so it targets uid max(0, 2) = 2 and slot 2, while
the claim's formula gives max(2^64, 2) = 2^64 and slot 2^64 mod 3 = 1. -/
theorem read_target_wraps_at_u64 :
    read_target_uid (U64 - 1) 4 = 2 ∧
    spec_target_uid (U64 - 1) 4 = U64 ∧
    read_target_uid (U64 - 1) 4 ≠ spec_target_uid (U64 - 1) 4 ∧
    (read_target_slot (U64 - 1) 4).val ≠ spec_target_uid (U64 - 1) 4 % BUFFER_COUNT := by
  refine ⟨by decide, by decide, by decide, by decide⟩

/-- Claim C3 (amended): provided the total number of successful publishes k
is below 2^64 (so no uid has been reused yet), a successful read that reports
frame_uid u, where the u-th publish carried payload P of the region's image
size at acquisition time t, yields exactly P as its data bytes and t as its
acquisition time.  (The unamended claim also covers histories of 2^64 or more
publishes, where the wrapped counter reissues uids.) -/
theorem read_roundtrip_payload (w h d : Nat) (pay : Nat → List Nat) (tm : Nat → Nat)
    (k : Nat) (hk : k < U64) (u t : Nat) (P : List Nat)
    (hu1 : 1 ≤ u) (huk : u ≤ k) (hP : pay u = P) (hPlen : P.length = w * h * d)
    (ht : tm u = t) (f : frame_t)
    (hsucc : (read_frame (publishN w h d pay tm k) f false).1 = SUCCESS)
    (huid : (read_frame (publishN w h d pay tm k) f false).2.frame_uid = u) :
    (read_frame (publishN w h d pay tm k) f false).2.data = P ∧
    (read_frame (publishN w h d pay tm k) f false).2.acquisition_time = t := by
  obtain ⟨hw, hh, hd, ha, hc, hmeta⟩ := publishN_invariant w h d pay tm k
  obtain ⟨ha', hne⟩ := read_frame_success_inv _ _ _ hsucc
  have hle : lastPub k
      (read_target_slot f.frame_uid (publishN w h d pay tm k).frame_cnt) ≤ k := by
    unfold lastPub
    exact Nat.findGreatest_le k
  have huid' : lastPub k
      (read_target_slot f.frame_uid (publishN w h d pay tm k).frame_cnt) % U64 = u := by
    rw [read_frame_success_eq _ _ ha' hne, (hmeta _).1] at huid
    exact huid
  have hlpu : lastPub k
      (read_target_slot f.frame_uid (publishN w h d pay tm k).frame_cnt) = u := by
    rw [Nat.mod_eq_of_lt (lt_of_le_of_lt hle hk)] at huid'
    exact huid'
  have hu0 : lastPub k
      (read_target_slot f.frame_uid (publishN w h d pay tm k).frame_cnt) ≠ 0 := by
    omega
  constructor
  · rw [read_frame_success_eq _ _ ha' hne]
    show ((publishN w h d pay tm k).images
        (read_target_slot f.frame_uid (publishN w h d pay tm k).frame_cnt)).take
        ((publishN w h d pay tm k).width * (publishN w h d pay tm k).height *
          (publishN w h d pay tm k).depth) = P
    rw [(hmeta _).2.2, if_neg hu0, hlpu, hP, hw, hh, hd, List.take_take, Nat.min_self,
      ← hPlen, List.take_length]
  · rw [read_frame_success_eq _ _ ha' hne]
    show (publishN w h d pay tm k).meta_time
        (read_target_slot f.frame_uid (publishN w h d pay tm k).frame_cnt) = t
    rw [(hmeta _).2.1, if_neg hu0, hlpu, ht]

/-- Witness for the amended claim C3: after two publishes of the payW/tmW
stream, the consumer holding uid 1 reads publish #2 back byte-identically. -/
theorem read_roundtrip_payload_witness :
    (read_frame (publishN 2 2 1 payW tmW 2) frameW false).2.data = List.replicate 4 2 ∧
    (read_frame (publishN 2 2 1 payW tmW 2) frameW false).2.acquisition_time = 20 := by
  exact read_roundtrip_payload 2 2 1 payW tmW 2 (by decide) 2 20 (List.replicate 4 2)
    (by decide) (by decide) (by decide) (by decide) (by decide) frameW
    (by decide) (by decide)

/-- Claim C3 counterexample at the uint64 boundary: with the pay0/tm0 stream
on a fresh 2x2x1 region, publish #1 stores uid 1 with payload [1,1,1,1]; after
2^64 + 1 publishes the wrapped counter has reissued uid 1 (same slot), and a
fresh consumer's read returns Success with frame_uid 1 but data [2,2,2,2] —
not the bytes published with uid 1. -/
theorem read_uid_collision_after_wrap :
    (publishN 2 2 1 pay0 tm0 1).meta_uid slot1 = 1 ∧
    (publishN 2 2 1 pay0 tm0 1).images slot1 = [1, 1, 1, 1] ∧
    (read_frame (publishN 2 2 1 pay0 tm0 (U64 + 1)) frame0 false).1 = SUCCESS ∧
    (read_frame (publishN 2 2 1 pay0 tm0 (U64 + 1)) frame0 false).2.frame_uid = 1 ∧
    (read_frame (publishN 2 2 1 pay0 tm0 (U64 + 1)) frame0 false).2.data = [2, 2, 2, 2] ∧
    (read_frame (publishN 2 2 1 pay0 tm0 (U64 + 1)) frame0 false).2.data ≠ [1, 1, 1, 1] := by
  obtain ⟨hw, hh, hd, ha, hc, hmeta⟩ := publishN_invariant 2 2 1 pay0 tm0 (U64 + 1)
  have hcv : (publishN 2 2 1 pay0 tm0 (U64 + 1)).frame_cnt = 1 := by
    rw [hc]; decide
  have hne : frame0.frame_uid ≠ (publishN 2 2 1 pay0 tm0 (U64 + 1)).frame_cnt := by
    rw [hcv]; decide
  have hre := read_frame_success_eq (publishN 2 2 1 pay0 tm0 (U64 + 1)) frame0 ha hne
  have hslot : read_target_slot frame0.frame_uid
      (publishN 2 2 1 pay0 tm0 (U64 + 1)).frame_cnt = slot1 := by
    rw [hcv]; decide
  have hlp : lastPub (U64 + 1) slot1 = U64 + 1 :=
    lastPub_succ_self U64 slot1 (by decide)
  have hu := (hmeta slot1).1
  have hi := (hmeta slot1).2.2
  rw [hlp] at hu hi
  rw [if_neg (by decide : ¬(U64 + 1 = 0))] at hi
  refine ⟨by decide, by decide, ?_, ?_, ?_, ?_⟩
  · rw [hre]
  · rw [hre, hslot, hu]
    decide
  · rw [hre, hslot, hi, hw, hh, hd]
    decide
  · rw [hre, hslot, hi, hw, hh, hd]
    decide

/-- Claim C7 (amended): provided the total number of publishes stays below
2^64, two successful non-blocking reads chained through the same consumer
frame — the second call's high-water uid is exactly the frame returned by the
first, with any number of further publishes in between — return strictly
increasing frame_uid values; hence every such chain of successful reads
returns strictly increasing uids.  (The unamended claim also covers histories
of 2^64 or more publishes, where stored uids wrap around.) -/
theorem read_uids_strictly_increase (w h d : Nat) (pay : Nat → List Nat)
    (tm : Nat → Nat) (k1 k2 : Nat) (h12 : k1 ≤ k2) (hk : k2 < U64)
    (f0 f1 f2 : frame_t)
    (h1 : read_frame (publishN w h d pay tm k1) f0 false = (SUCCESS, f1))
    (h2 : read_frame (publishN w h d pay tm k2) f1 false = (SUCCESS, f2)) :
    f1.frame_uid < f2.frame_uid := by
  have hs1 : (read_frame (publishN w h d pay tm k1) f0 false).1 = SUCCESS := by
    rw [h1]
  have hs2 : (read_frame (publishN w h d pay tm k2) f1 false).1 = SUCCESS := by
    rw [h2]
  have hle1 : f1.frame_uid ≤ k1 := by
    have hres := read_result_uid_le w h d pay tm k1 f0 hs1
    rw [h1] at hres
    exact hres
  have hstep := (read_success_uid_step w h d pay tm k2 hk f1 (le_trans hle1 h12) hs2).1
  rw [h2] at hstep
  exact hstep

/-- Witness for the amended claim C7: a chain of two successful reads (at 1
and then 2 publishes of the payW/tmW stream) returns uid 1 and then uid 2. -/
theorem read_uids_strictly_increase_witness :
    read_frame (publishN 2 2 1 payW tmW 1) frame0 false = (SUCCESS, frameW1) ∧
    read_frame (publishN 2 2 1 payW tmW 2) frameW1 false = (SUCCESS, frameW2) ∧
    frameW1.frame_uid < frameW2.frame_uid := by
  refine ⟨by decide, by decide, ?_⟩
  exact read_uids_strictly_increase 2 2 1 payW tmW 1 2 (by decide) (by decide)
    frame0 frameW1 frameW2 (by decide) (by decide)

/-- Claim C7 counterexample at the uint64 boundary: with the pay0/tm0 stream,
a fresh consumer's read at 2^64 - 1 publishes succeeds with uid 2^64 - 3;
after three more publishes (2^64 + 2 total, counter wrapped to 2) the chained
read also succeeds but returns uid 2 < 2^64 - 3 — the uids of successive
successful reads on the same frame decreased. -/
theorem read_uids_decrease_after_wrap :
    (read_frame (publishN 2 2 1 pay0 tm0 (U64 - 1)) frame0 false).1 = SUCCESS ∧
    (read_frame (publishN 2 2 1 pay0 tm0 (U64 + 2))
        (read_frame (publishN 2 2 1 pay0 tm0 (U64 - 1)) frame0 false).2 false).1 =
      SUCCESS ∧
    (read_frame (publishN 2 2 1 pay0 tm0 (U64 + 2))
        (read_frame (publishN 2 2 1 pay0 tm0 (U64 - 1)) frame0 false).2 false).2.frame_uid <
      (read_frame (publishN 2 2 1 pay0 tm0 (U64 - 1)) frame0 false).2.frame_uid := by
  obtain ⟨hw1, hh1, hd1, ha1, hc1, hmeta1⟩ := publishN_invariant 2 2 1 pay0 tm0 (U64 - 1)
  obtain ⟨hw2, hh2, hd2, ha2, hc2, hmeta2⟩ := publishN_invariant 2 2 1 pay0 tm0 (U64 + 2)
  have hcv1 : (publishN 2 2 1 pay0 tm0 (U64 - 1)).frame_cnt = U64 - 1 := by
    rw [hc1]; decide
  have hne1 : frame0.frame_uid ≠ (publishN 2 2 1 pay0 tm0 (U64 - 1)).frame_cnt := by
    rw [hcv1]; decide
  have hre1 := read_frame_success_eq (publishN 2 2 1 pay0 tm0 (U64 - 1)) frame0 ha1 hne1
  have hslot1 : read_target_slot frame0.frame_uid
      (publishN 2 2 1 pay0 tm0 (U64 - 1)).frame_cnt = slot1 := by
    rw [hcv1]; decide
  have hUlit : U64 = 18446744073709551616 := by decide
  have hlp1 : lastPub (U64 - 1) slot1 = U64 - 3 := by
    unfold lastPub
    rw [Nat.findGreatest_eq_iff]
    refine ⟨by decide, fun _ => ⟨by decide, by decide⟩, fun n hn1 hn2 => ?_⟩
    rintro ⟨hn0, hns⟩
    rw [slotOf_eq_of_lt (by omega) (by omega)] at hns
    have hns' : n % 3 = 1 := hns
    rw [hUlit] at hn1 hn2
    omega
  have hu1 := (hmeta1 slot1).1
  rw [hlp1] at hu1
  have huid1 : (read_frame (publishN 2 2 1 pay0 tm0 (U64 - 1)) frame0 false).2.frame_uid =
      U64 - 3 := by
    rw [hre1, hslot1, hu1]
    decide
  have hcv2 : (publishN 2 2 1 pay0 tm0 (U64 + 2)).frame_cnt = 2 := by
    rw [hc2]; decide
  have hne2 : (read_frame (publishN 2 2 1 pay0 tm0 (U64 - 1)) frame0 false).2.frame_uid ≠
      (publishN 2 2 1 pay0 tm0 (U64 + 2)).frame_cnt := by
    rw [huid1, hcv2]; decide
  have hre2 := read_frame_success_eq (publishN 2 2 1 pay0 tm0 (U64 + 2))
    ((read_frame (publishN 2 2 1 pay0 tm0 (U64 - 1)) frame0 false).2) ha2 hne2
  have hslot2 : read_target_slot
      (read_frame (publishN 2 2 1 pay0 tm0 (U64 - 1)) frame0 false).2.frame_uid
      (publishN 2 2 1 pay0 tm0 (U64 + 2)).frame_cnt = slot2 := by
    rw [huid1, hcv2]
    decide
  have hlp2 : lastPub (U64 + 2) slot2 = U64 + 2 := by
    have heq2 : U64 + 2 = U64 + 1 + 1 := by omega
    rw [heq2]
    exact lastPub_succ_self (U64 + 1) slot2 (by decide)
  have hu2 := (hmeta2 slot2).1
  rw [hlp2] at hu2
  have huid2 : (read_frame (publishN 2 2 1 pay0 tm0 (U64 + 2))
      (read_frame (publishN 2 2 1 pay0 tm0 (U64 - 1)) frame0 false).2 false).2.frame_uid =
      2 := by
    rw [hre2, hslot2, hu2]
    decide
  refine ⟨?_, ?_, ?_⟩
  · rw [hre1]
  · rw [hre2]
  · rw [huid2, huid1]
    decide
